import Mathlib

/-!
Verification model of `src/UserManager.sh.py` (class `UserManager`).

The script shells out to OS account tools.  We embed it shallowly:

* `SysState` is the observable POSIX account store: the passwd database
  (list of entries, each with name, uid, gecos, home path, shell, and an
  optional credential standing for the shadow entry) plus the set of
  existing home directories.
* The external OS tools (`useradd`, `userdel`, `chpasswd`) are modelled
  as functions on `SysState` that may fail; which calls fail is injected
  through a `Behavior` record, standing for the exit codes the real
  subprocesses would return.
* Each script method returns a `RunResult`: the boolean the Python
  function returns, the resulting store state, the trace of mutating
  backend calls issued, and the log messages emitted.
-/

namespace UserManager

/-- One entry of the POSIX account database (a `pwd` record plus the
credential held in the shadow database; `none` means no credential was
ever set). -/
structure PwEntry where
  pw_name : String
  pw_uid : Nat
  pw_gecos : String
  pw_dir : String
  pw_shell : String
  pw_passwd : Option String
deriving DecidableEq

/-- Observable POSIX account-store state: passwd entries and the set of
home directories that exist on disk. -/
structure SysState where
  users : List PwEntry
  homes : List String
deriving DecidableEq

def emptyState : SysState := ⟨[], []⟩

/-- Failure injection for the external tools the script invokes, and the
data the backend chooses on its own (the uid `useradd` assigns, the
strings `getpass` would read when no password argument is given). -/
structure Behavior where
  useraddFails : Bool
  chpasswdFails : Bool
  userdelFails : Bool
  newUid : Nat
  promptPassword : String
  promptConfirm : String
deriving DecidableEq

/-- Trace element: one mutating backend call issued by the script. -/
inductive SysCall where
  | useraddCall (username : String)
  | chpasswdCall (username : String) (password : String)
  | userdelCall (username : String) (removeHome : Bool)
deriving DecidableEq

/-- The log messages the script emits (src lines 79, 121, 123, 127, 148,
171, 192, 196, 229, 236, 263, 266). -/
inductive LogMsg where
  | errAlreadyExists (u : String)
  | errDoesNotExist (u : String)
  | errUseraddFailed
  | errChpasswdFailed
  | errUserdelFailed
  | errPasswordMismatch
  | warnNoPassword (u : String)
  | infoCreated (u : String)
  | infoDeleted (u : String)
  | infoPasswordUpdated (u : String)
deriving DecidableEq

/-- What one script method call produces: the returned boolean, the
resulting account-store state, the mutating backend calls issued, and
the log messages emitted. -/
structure RunResult where
  ok : Bool
  state : SysState
  calls : List SysCall
  log : List LogMsg
deriving DecidableEq

/-- `UserManager.user_exists` (src lines 42-58, Linux branch):
`pwd.getpwnam(username)` succeeds iff an entry with that name is in the
database. -/
def user_exists (st : SysState) (username : String) : Bool :=
  st.users.any (fun u => u.pw_name == username)

/-- Effect of the `useradd` command the script builds (src lines 96-115):
`-d`/`-m`/`-M` per the three home-directory branches, `-s shell`, then
the username.  The backend assigns the uid (`beh.newUid`).  Creates the
entry with no credential; creates the home directory only when `-m` was
passed, i.e. when no explicit `home_dir` was given and `create_home` is
true.  Returns `none` when the command exits nonzero. -/
def run_useradd (beh : Behavior) (st : SysState) (username : String)
    (home_dir : Option String) (create_home : Bool) (shell : String) :
    Option SysState :=
  if beh.useraddFails then none
  else
    let dir := match home_dir with
      | some d => d
      | none => "/home/" ++ username
    let makeHome := home_dir.isNone && create_home
    some ⟨st.users ++ [⟨username, beh.newUid, "", dir, shell, none⟩],
          if makeHome then st.homes ++ [dir] else st.homes⟩

/-- Effect of `chpasswd` fed `username:password` (src lines 252-260):
sets the credential of the named entry; exits nonzero when injected to
fail or when the user does not exist. -/
def run_chpasswd (beh : Behavior) (st : SysState) (username : String)
    (password : String) : Option SysState :=
  if beh.chpasswdFails || !(user_exists st username) then none
  else
    some ⟨st.users.map (fun u =>
            if u.pw_name == username then
              ⟨u.pw_name, u.pw_uid, u.pw_gecos, u.pw_dir, u.pw_shell, some password⟩
            else u),
          st.homes⟩

/-- Effect of `userdel [-r]` (src lines 186-191): removes the named
entry; with `-r` also removes that entry's home directory.  Exits
nonzero when injected to fail or when the user does not exist. -/
def run_userdel (beh : Behavior) (st : SysState) (username : String)
    (removeHome : Bool) : Option SysState :=
  if beh.userdelFails || !(user_exists st username) then none
  else
    some ⟨st.users.filter (fun u => !(u.pw_name == username)),
          if removeHome then
            st.homes.filter (fun h =>
              !(st.users.any (fun u => u.pw_name == username && u.pw_dir == h)))
          else st.homes⟩

/-- `UserManager._update_password_linux` (src lines 248-271): spawns
`chpasswd`, writes `username:password`, returns true iff it exited 0.
The subprocess is spawned (hence traced) whether or not it succeeds. -/
def update_password_linux (beh : Behavior) (st : SysState) (username : String)
    (password : String) : RunResult :=
  match run_chpasswd beh st username password with
  | some st' => ⟨true, st', [SysCall.chpasswdCall username password],
                 [LogMsg.infoPasswordUpdated username]⟩
  | none => ⟨false, st, [SysCall.chpasswdCall username password],
             [LogMsg.errChpasswdFailed]⟩

/-- `UserManager.update_password` (src lines 216-246): fails fast when
the user does not exist (no backend call); when `password` is `None`,
prompts twice via `getpass` (modelled by `beh.promptPassword` /
`beh.promptConfirm`) and fails on mismatch; otherwise delegates to the
Linux helper with the given string, empty or not. -/
def update_password (beh : Behavior) (st : SysState) (username : String)
    (password : Option String) : RunResult :=
  if !(user_exists st username) then
    ⟨false, st, [], [LogMsg.errDoesNotExist username]⟩
  else
    match password with
    | none =>
      if beh.promptPassword ≠ beh.promptConfirm then
        ⟨false, st, [], [LogMsg.errPasswordMismatch]⟩
      else update_password_linux beh st username beh.promptPassword
    | some p => update_password_linux beh st username p

/-- `UserManager._create_user_linux` (src lines 91-128): runs `useradd`;
on success, if a password was supplied (Python truthiness: not `None`
and not `""`), calls `update_password` and IGNORES its return value
(src line 119), then returns true; with no (or empty) password it only
logs a warning.  Returns false only when `useradd` itself failed. -/
def create_user_linux (beh : Behavior) (st : SysState) (username : String)
    (password : Option String) (shell : String) (home_dir : Option String)
    (create_home : Bool) : RunResult :=
  match run_useradd beh st username home_dir create_home shell with
  | none => ⟨false, st, [SysCall.useraddCall username], [LogMsg.errUseraddFailed]⟩
  | some st1 =>
    match password with
    | some p =>
      if p ≠ "" then
        let r := update_password beh st1 username (some p)
        ⟨true, r.state, SysCall.useraddCall username :: r.calls,
         r.log ++ [LogMsg.infoCreated username]⟩
      else
        ⟨true, st1, [SysCall.useraddCall username],
         [LogMsg.warnNoPassword username, LogMsg.infoCreated username]⟩
    | none =>
      ⟨true, st1, [SysCall.useraddCall username],
       [LogMsg.warnNoPassword username, LogMsg.infoCreated username]⟩

/-- `UserManager.create_user` (src lines 60-89, Linux path): fails fast
with the "already exists" error when the user is present (no backend
call, no state change), otherwise delegates to the Linux helper. -/
def create_user (beh : Behavior) (st : SysState) (username : String)
    (password : Option String) (shell : String) (home_dir : Option String)
    (create_home : Bool) : RunResult :=
  if user_exists st username then
    ⟨false, st, [], [LogMsg.errAlreadyExists username]⟩
  else create_user_linux beh st username password shell home_dir create_home

/-- `UserManager._delete_user_linux` (src lines 183-197): runs
`userdel [-r]`, returns true iff it exited 0. -/
def delete_user_linux (beh : Behavior) (st : SysState) (username : String)
    (remove_home : Bool) : RunResult :=
  match run_userdel beh st username remove_home with
  | some st' => ⟨true, st', [SysCall.userdelCall username remove_home],
                 [LogMsg.infoDeleted username]⟩
  | none => ⟨false, st, [SysCall.userdelCall username remove_home],
             [LogMsg.errUserdelFailed]⟩

/-- `UserManager.delete_user` (src lines 158-181, Linux path): fails
fast with the "does not exist" error when the user is absent (no
backend call, no state change), otherwise delegates. -/
def delete_user (beh : Behavior) (st : SysState) (username : String)
    (remove_home : Bool) : RunResult :=
  if !(user_exists st username) then
    ⟨false, st, [], [LogMsg.errDoesNotExist username]⟩
  else delete_user_linux beh st username remove_home

/-! ### Listing (src lines 303-323, `_list_users_linux`)

The Python loop keeps an entry when the pattern check passes
(`pattern and pattern.lower() not in username.lower()` skips it) and
`pw_uid >= 1000 or pw_uid == 0`, builds rows
`(username, uid, gecos or "No description")`, and prints `sorted(users)`
— Python's stable mergesort under lexicographic tuple comparison. -/

/-- `startsWithChars needle hay`: `hay` begins with `needle`. -/
def startsWithChars : List Char → List Char → Bool
  | [], _ => true
  | _ :: _, [] => false
  | n :: ns, h :: hs => n == h && startsWithChars ns hs

/-- `containsChars needle hay`: Python's `needle in hay` on strings —
`needle` occurs contiguously in `hay` (the empty needle always does). -/
def containsChars (needle : List Char) : List Char → Bool
  | [] => needle.isEmpty
  | h :: hs => startsWithChars needle (h :: hs) || containsChars needle hs

/-- `.lower()` of a string, as its character list (ASCII case folding,
which is what `Char.toLower` provides). -/
def lowerChars (s : String) : List Char :=
  s.toList.map Char.toLower

/-- The pattern check of src line 309: an entry is kept unless a truthy
pattern was given whose lowercasing is not a substring of the lowercased
username. -/
def matchesPattern (pattern : Option String) (username : String) : Bool :=
  match pattern with
  | none => true
  | some p => p == "" || containsChars (lowerChars p) (lowerChars username)

/-- `user.pw_gecos or "No description"` (src line 312). -/
def descOf (e : PwEntry) : String :=
  if e.pw_gecos == "" then "No description" else e.pw_gecos

/-- The row appended for a kept entry (src line 312). -/
def toRow (e : PwEntry) : String × Nat × String :=
  (e.pw_name, e.pw_uid, descOf e)

/-- The filter of src lines 309-311: pattern check and
`pw_uid >= 1000 or pw_uid == 0`. -/
def keepEntry (pattern : Option String) (e : PwEntry) : Bool :=
  matchesPattern pattern e.pw_name && (decide (1000 ≤ e.pw_uid) || e.pw_uid == 0)

/-- Lexicographic comparison of rows, as Python's `sorted` compares the
tuples `(username, uid, description)`. -/
def rowLe (a b : String × Nat × String) : Bool :=
  decide (a.1 < b.1) ||
    (a.1 == b.1 &&
      (decide (a.2.1 < b.2.1) || (a.2.1 == b.2.1 && decide (a.2.2 ≤ b.2.2))))

/-- `UserManager._list_users_linux` (src lines 303-323), as the list of
rows it prints, in print order: filter, build rows, `sorted`. -/
def list_users_linux (entries : List PwEntry) (pattern : Option String) :
    List (String × Nat × String) :=
  ((entries.filter (keepEntry pattern)).map toRow).mergeSort rowLe

/-! ### Windows branch -/

/-- One entry of the Windows local account store as the script touches
it (`NetUserAdd` level-1 info: name and password). -/
structure WinUser where
  name : String
  password : String
deriving DecidableEq

/-- Observable Windows state: local accounts and on-disk profile
directories (the script never touches the latter). -/
structure WinState where
  users : List WinUser
  profiles : List String
deriving DecidableEq

/-- Failure injection for the `win32net` calls. -/
structure WinBehavior where
  netUserAddFails : Bool
  netUserDelFails : Bool
deriving DecidableEq

/-- Trace element: one mutating `win32net` call. -/
inductive WinCall where
  | netUserAdd (name : String) (password : String)
  | netUserDel (name : String)
deriving DecidableEq

/-- Log messages of the Windows branch (src lines 148, 150, 155, 207,
209, 213). -/
inductive WinLogMsg where
  | errAlreadyExists (u : String)
  | errDoesNotExist (u : String)
  | errCreateFailed (u : String)
  | errDeleteFailed (u : String)
  | warnEmptyPassword (u : String)
  | warnHomeNotImplemented
  | infoCreatedWithPassword (u : String)
  | infoDeleted (u : String)
deriving DecidableEq

/-- Result of a Windows-branch method call. -/
structure WinRunResult where
  ok : Bool
  state : WinState
  calls : List WinCall
  log : List WinLogMsg
deriving DecidableEq

/-- `user_exists`, Windows branch (src lines 45-52):
`NetUserGetInfo` succeeds iff the account is present. -/
def win_user_exists (st : WinState) (username : String) : Bool :=
  st.users.any (fun u => u.name == username)

/-- `UserManager._create_user_windows` (src lines 130-156): calls
`NetUserAdd` with `'password': password or ""` — a missing or empty
password becomes the empty string, stored as the account's credential —
and warns when no truthy password was given. -/
def create_user_windows (beh : WinBehavior) (st : WinState)
    (username : String) (password : Option String) : WinRunResult :=
  let pw := password.getD ""
  if beh.netUserAddFails then
    ⟨false, st, [WinCall.netUserAdd username pw], [WinLogMsg.errCreateFailed username]⟩
  else
    let passTruthy : Bool := match password with
      | some p => p != ""
      | none => false
    ⟨true, ⟨st.users ++ [⟨username, pw⟩], st.profiles⟩,
     [WinCall.netUserAdd username pw],
     if passTruthy then [WinLogMsg.infoCreatedWithPassword username]
     else [WinLogMsg.warnEmptyPassword username]⟩

/-- `UserManager._delete_user_windows` (src lines 199-214): calls
`NetUserDel`; when `remove_home` was requested it only logs a warning
that removal is not implemented — the profile directories are left
untouched — and still returns true. -/
def delete_user_windows (beh : WinBehavior) (st : WinState)
    (username : String) (remove_home : Bool) : WinRunResult :=
  if beh.netUserDelFails || !(win_user_exists st username) then
    ⟨false, st, [WinCall.netUserDel username], [WinLogMsg.errDeleteFailed username]⟩
  else
    ⟨true, ⟨st.users.filter (fun u => !(u.name == username)), st.profiles⟩,
     [WinCall.netUserDel username],
     (if remove_home then [WinLogMsg.warnHomeNotImplemented] else []) ++
       [WinLogMsg.infoDeleted username]⟩

/-- `UserManager.create_user`, Windows path (src lines 78-84): the
already-exists fail-fast, then the Windows helper. -/
def create_user_win (beh : WinBehavior) (st : WinState) (username : String)
    (password : Option String) : WinRunResult :=
  if win_user_exists st username then
    ⟨false, st, [], [WinLogMsg.errAlreadyExists username]⟩
  else create_user_windows beh st username password

/-- `UserManager.delete_user`, Windows path (src lines 170-176): the
does-not-exist fail-fast, then the Windows helper. -/
def delete_user_win (beh : WinBehavior) (st : WinState) (username : String)
    (remove_home : Bool) : WinRunResult :=
  if !(win_user_exists st username) then
    ⟨false, st, [], [WinLogMsg.errDoesNotExist username]⟩
  else delete_user_windows beh st username remove_home

/-! ### Concrete fixtures used by witnesses and counterexamples -/

/-- Behavior in which every backend call succeeds. -/
def behNone : Behavior := ⟨false, false, false, 1000, "", ""⟩

/-- Behavior in which only `chpasswd` fails. -/
def behChpasswdFail : Behavior := ⟨false, true, false, 1000, "", ""⟩

/-- A state holding just the user `bob`. -/
def stBob : SysState := ⟨[⟨"bob", 1000, "", "/home/bob", "/bin/bash", none⟩], ["/home/bob"]⟩

def winBehNone : WinBehavior := ⟨false, false⟩

/-- A Windows state holding `carol` and her profile directory. -/
def winCarol : WinState := ⟨[⟨"carol", "x"⟩], ["C:/Users/carol"]⟩

/-! ### Helper lemmas -/

theorem any_name_map_passwd (users : List PwEntry) (u' pw u : String) :
    ((users.map (fun e =>
        if e.pw_name == u' then
          PwEntry.mk e.pw_name e.pw_uid e.pw_gecos e.pw_dir e.pw_shell (some pw)
        else e)).any (fun e => e.pw_name == u))
      = users.any (fun e => e.pw_name == u) := by
  induction users with
  | nil => rfl
  | cons e es ih =>
    simp only [List.map_cons, List.any_cons, ih]
    cases h : e.pw_name == u' <;> simp [h]

theorem user_exists_update_password_linux (beh : Behavior) (st : SysState)
    (u' p u : String) :
    user_exists (update_password_linux beh st u' p).state u = user_exists st u := by
  unfold update_password_linux run_chpasswd
  split
  · next heq =>
    split at heq
    · exact absurd heq (by simp)
    · cases heq
      simpa [user_exists] using any_name_map_passwd st.users u' p u
  · rfl

theorem user_exists_update_password (beh : Behavior) (st : SysState)
    (u' : String) (pw : Option String) (u : String) :
    user_exists (update_password beh st u' pw).state u = user_exists st u := by
  cases pw with
  | none =>
    show user_exists (if (!user_exists st u') = true then
        RunResult.mk false st [] [LogMsg.errDoesNotExist u']
      else if beh.promptPassword ≠ beh.promptConfirm then
        RunResult.mk false st [] [LogMsg.errPasswordMismatch]
      else update_password_linux beh st u' beh.promptPassword).state u = user_exists st u
    split
    · rfl
    · split
      · rfl
      · exact user_exists_update_password_linux beh st u' beh.promptPassword u
  | some p =>
    show user_exists (if (!user_exists st u') = true then
        RunResult.mk false st [] [LogMsg.errDoesNotExist u']
      else update_password_linux beh st u' p).state u = user_exists st u
    split
    · rfl
    · exact user_exists_update_password_linux beh st u' p u

/-- After a `create_user` call with the user absent and `useradd` not
failing, the call returns true and the user is present. -/
theorem create_ok_and_exists (beh : Behavior) (st : SysState) (u : String)
    (pw : Option String) (sh : String) (hd : Option String) (ch : Bool)
    (hne : user_exists st u = false) (hua : beh.useraddFails = false) :
    (create_user beh st u pw sh hd ch).ok = true ∧
      user_exists (create_user beh st u pw sh hd ch).state u = true := by
  have hex : ∀ (homes : List String) (dir : String),
      user_exists ⟨st.users ++ [PwEntry.mk u beh.newUid "" dir sh none], homes⟩ u = true := by
    intro homes dir
    simp [user_exists]
  unfold create_user create_user_linux run_useradd
  simp only [hne, hua, Bool.false_eq_true, if_false]
  cases pw with
  | none => exact ⟨by simp, hex _ _⟩
  | some p =>
    by_cases hp : p = ""
    · subst hp
      exact ⟨by simp, hex _ _⟩
    · simp only [ne_eq, hp, not_false_eq_true, if_true]
      exact ⟨by simp, by rw [user_exists_update_password]; exact hex _ _⟩

theorem update_password_some_exists (beh : Behavior) (st : SysState)
    (u p : String) (h : user_exists st u = true) :
    update_password beh st u (some p) = update_password_linux beh st u p := by
  unfold update_password
  simp [h]

theorem update_password_chpasswd_fail (beh : Behavior) (st : SysState)
    (u p : String) (hex : user_exists st u = true)
    (hcf : beh.chpasswdFails = true) :
    update_password beh st u (some p) =
      RunResult.mk false st [SysCall.chpasswdCall u p] [LogMsg.errChpasswdFailed] := by
  rw [update_password_some_exists beh st u p hex]
  unfold update_password_linux run_chpasswd
  simp [hcf]

theorem update_password_chpasswd_ok (beh : Behavior) (st : SysState)
    (u p : String) (hex : user_exists st u = true)
    (hcf : beh.chpasswdFails = false) :
    update_password beh st u (some p) =
      RunResult.mk true
        ⟨st.users.map (fun e =>
            if e.pw_name == u then
              PwEntry.mk e.pw_name e.pw_uid e.pw_gecos e.pw_dir e.pw_shell (some p)
            else e),
          st.homes⟩
        [SysCall.chpasswdCall u p] [LogMsg.infoPasswordUpdated u] := by
  rw [update_password_some_exists beh st u p hex]
  unfold update_password_linux run_chpasswd
  simp [hcf, hex]

/-- Shape of a successful `create_user` run with a truthy password, no
explicit home dir, and home creation requested. -/
theorem create_user_home_eq (beh : Behavior) (st : SysState) (u p sh : String)
    (hb : user_exists st u = false) (hua : beh.useraddFails = false)
    (hp : p ≠ "") :
    create_user beh st u (some p) sh none true =
      RunResult.mk true
        (update_password beh
          ⟨st.users ++ [PwEntry.mk u beh.newUid "" ("/home/" ++ u) sh none],
            st.homes ++ ["/home/" ++ u]⟩ u (some p)).state
        (SysCall.useraddCall u ::
          (update_password beh
            ⟨st.users ++ [PwEntry.mk u beh.newUid "" ("/home/" ++ u) sh none],
              st.homes ++ ["/home/" ++ u]⟩ u (some p)).calls)
        ((update_password beh
            ⟨st.users ++ [PwEntry.mk u beh.newUid "" ("/home/" ++ u) sh none],
              st.homes ++ ["/home/" ++ u]⟩ u (some p)).log ++
          [LogMsg.infoCreated u]) := by
  unfold create_user create_user_linux run_useradd
  simp [hb, hua, hp]

/-! ### C7 -/

/-- C7: for every username that does not exist, `update_password`
(`setPassword`) returns the does-not-exist failure, leaves the state
unchanged, and issues zero backend mutation calls. -/
theorem update_password_nonexistent_notfound (beh : Behavior) (st : SysState)
    (u : String) (pw : Option String) (h : user_exists st u = false) :
    update_password beh st u pw =
      RunResult.mk false st [] [LogMsg.errDoesNotExist u] := by
  unfold update_password
  simp [h]

theorem update_password_nonexistent_notfound_witness :
    user_exists emptyState "dave" = false ∧
      update_password behNone emptyState "dave" (some "pw") =
        RunResult.mk false emptyState [] [LogMsg.errDoesNotExist "dave"] :=
  ⟨by decide,
    update_password_nonexistent_notfound behNone emptyState "dave" (some "pw") (by decide)⟩

/-! ### C5 -/

/-- C5 counterexample: `update_password` called with the empty
credential on an existing user does issue a backend call — `chpasswd`
is fed `bob:` — and even reports success; there is no planning-time
`InvalidCredential` rejection. -/
theorem empty_credential_counterexample :
    (update_password behNone stBob "bob" (some "")).calls = [SysCall.chpasswdCall "bob" ""] ∧
      (update_password behNone stBob "bob" (some "")).ok = true := by decide

/-- C5 amended: an empty credential is not rejected at planning time;
it is forwarded verbatim to the backend in a `chpasswd` call, and when
`chpasswd` itself succeeds the call reports success. -/
theorem empty_credential_forwarded (beh : Behavior) (st : SysState)
    (u : String) (h : user_exists st u = true) :
    (update_password beh st u (some "")).calls = [SysCall.chpasswdCall u ""] ∧
      (beh.chpasswdFails = false → (update_password beh st u (some "")).ok = true) := by
  constructor
  · rw [update_password_some_exists beh st u "" h]
    unfold update_password_linux
    cases run_chpasswd beh st u "" <;> rfl
  · intro hcf
    rw [update_password_chpasswd_ok beh st u "" h hcf]

theorem empty_credential_forwarded_witness :
    user_exists stBob "bob" = true ∧
      (update_password behNone stBob "bob" (some "")).calls = [SysCall.chpasswdCall "bob" ""] ∧
      (behNone.chpasswdFails = false → (update_password behNone stBob "bob" (some "")).ok = true) :=
  ⟨by decide, (empty_credential_forwarded behNone stBob "bob" (by decide)).1,
    (empty_credential_forwarded behNone stBob "bob" (by decide)).2⟩

/-! ### C4 -/

/-- C4: with the username absent and `useradd` working, the first
`create_user` succeeds; the second call returns the already-exists
failure and performs no backend call and no change to the
account-store state. -/
theorem create_twice_already_exists (beh : Behavior) (st : SysState)
    (u : String) (pw : Option String) (sh : String) (hd : Option String)
    (ch : Bool) (hne : user_exists st u = false)
    (hua : beh.useraddFails = false) :
    (create_user beh st u pw sh hd ch).ok = true ∧
      create_user beh (create_user beh st u pw sh hd ch).state u pw sh hd ch =
        RunResult.mk false (create_user beh st u pw sh hd ch).state []
          [LogMsg.errAlreadyExists u] := by
  obtain ⟨hok, hex⟩ := create_ok_and_exists beh st u pw sh hd ch hne hua
  refine ⟨hok, ?_⟩
  have hfail : ∀ st' : SysState, user_exists st' u = true →
      create_user beh st' u pw sh hd ch =
        RunResult.mk false st' [] [LogMsg.errAlreadyExists u] := by
    intro st' h
    unfold create_user
    simp [h]
  exact hfail _ hex

theorem create_twice_already_exists_witness :
    user_exists emptyState "alice" = false ∧ behNone.useraddFails = false ∧
      ((create_user behNone emptyState "alice" (some "pw") "/bin/bash" none true).ok = true ∧
        create_user behNone
            (create_user behNone emptyState "alice" (some "pw") "/bin/bash" none true).state
            "alice" (some "pw") "/bin/bash" none true =
          RunResult.mk false
            (create_user behNone emptyState "alice" (some "pw") "/bin/bash" none true).state
            [] [LogMsg.errAlreadyExists "alice"]) :=
  ⟨by decide, by decide,
    create_twice_already_exists behNone emptyState "alice" (some "pw") "/bin/bash" none true
      (by decide) (by decide)⟩

/-! ### C3 -/

/-- C3: a successful `create_user` leaves the user existing, and a
successful `delete_user` leaves the user not existing. -/
theorem create_exists_delete_not_exists :
    (∀ beh st u pw sh hd ch, (create_user beh st u pw sh hd ch).ok = true →
        user_exists (create_user beh st u pw sh hd ch).state u = true) ∧
      (∀ beh st u rh, (delete_user beh st u rh).ok = true →
        user_exists (delete_user beh st u rh).state u = false) := by
  constructor
  · intro beh st u pw sh hd ch hok
    cases hb : user_exists st u with
    | true => simp [create_user, hb] at hok
    | false =>
      cases hua : beh.useraddFails with
      | true => simp [create_user, create_user_linux, run_useradd, hb, hua] at hok
      | false => exact (create_ok_and_exists beh st u pw sh hd ch hb hua).2
  · intro beh st u rh hok
    unfold delete_user at hok ⊢
    cases hb : user_exists st u with
    | false => rw [hb] at hok; simp at hok
    | true =>
      rw [hb] at hok
      simp only [Bool.not_true, Bool.false_eq_true, if_false] at hok ⊢
      unfold delete_user_linux at hok ⊢
      cases hrd : run_userdel beh st u rh with
      | none => rw [hrd] at hok; simp at hok
      | some st' =>
        show user_exists st' u = false
        unfold run_userdel at hrd
        split at hrd
        · cases hrd
        · rw [Option.some_inj] at hrd
          subst hrd
          show (List.filter _ st.users).any (fun e => e.pw_name == u) = false
          rw [List.any_eq_false]
          intro e he
          have h2 := (List.mem_filter.mp he).2
          cases hc : e.pw_name == u with
          | false => simp [hc]
          | true => rw [hc] at h2; simp at h2

theorem create_exists_delete_not_exists_witness :
    user_exists (create_user behNone emptyState "alice" none "/bin/bash" none true).state
        "alice" = true ∧
      user_exists (delete_user behNone stBob "bob" true).state "bob" = false :=
  ⟨create_exists_delete_not_exists.1 behNone emptyState "alice" none "/bin/bash" none true
      (by decide),
    create_exists_delete_not_exists.2 behNone stBob "bob" true (by decide)⟩

/-! ### C1 -/

/-- C1 counterexample: starting from the empty store, `create_user`
for `alice` with a password runs `useradd` (which succeeds) and then
the credential step `chpasswd` (which fails).  Removal would have
succeeded (`userdelFails = false`), yet the final state is not that of
having run zero steps — the entry remains — the backend-call trace
contains no compensating `userdel`, and the call even reports
success. -/
theorem rollback_counterexample :
    behChpasswdFail.chpasswdFails = true ∧
      behChpasswdFail.userdelFails = false ∧
      (create_user behChpasswdFail emptyState "alice" (some "s3cr3t")
        "/bin/bash" none true).state ≠ emptyState ∧
      (create_user behChpasswdFail emptyState "alice" (some "s3cr3t")
          "/bin/bash" none true).calls =
        [SysCall.useraddCall "alice", SysCall.chpasswdCall "alice" "s3cr3t"] ∧
      (create_user behChpasswdFail emptyState "alice" (some "s3cr3t")
        "/bin/bash" none true).ok = true := by decide

/-- C1 amended: when the credential step fails after the account entry
was created, the script runs no compensating actions: the created entry
and home directory remain, the only backend calls are `useradd` then
`chpasswd`, and `create_user` still reports success. -/
theorem no_compensation_on_credential_failure (beh : Behavior) (st : SysState)
    (u p sh : String) (hne : user_exists st u = false)
    (hua : beh.useraddFails = false) (hcp : beh.chpasswdFails = true)
    (hp : p ≠ "") :
    create_user beh st u (some p) sh none true =
      RunResult.mk true
        ⟨st.users ++ [PwEntry.mk u beh.newUid "" ("/home/" ++ u) sh none],
          st.homes ++ ["/home/" ++ u]⟩
        [SysCall.useraddCall u, SysCall.chpasswdCall u p]
        [LogMsg.errChpasswdFailed, LogMsg.infoCreated u] := by
  rw [create_user_home_eq beh st u p sh hne hua hp]
  rw [update_password_chpasswd_fail beh _ u p (by simp [user_exists]) hcp]
  rfl

theorem no_compensation_on_credential_failure_witness :
    user_exists emptyState "alice" = false ∧
      create_user behChpasswdFail emptyState "alice" (some "s3cr3t") "/bin/bash" none true =
        RunResult.mk true
          ⟨[PwEntry.mk "alice" 1000 "" "/home/alice" "/bin/bash" none], ["/home/alice"]⟩
          [SysCall.useraddCall "alice", SysCall.chpasswdCall "alice" "s3cr3t"]
          [LogMsg.errChpasswdFailed, LogMsg.infoCreated "alice"] :=
  ⟨by decide,
    no_compensation_on_credential_failure behChpasswdFail emptyState "alice" "s3cr3t"
      "/bin/bash" (by decide) (by decide) (by decide) (by decide)⟩

/-! ### C2 -/

/-- C2 counterexample: `create_user` with a non-empty credential and
home creation requested reports success although the credential was
never set — `chpasswd` failed and its return value is ignored (src
line 119): the resulting entry still has no credential. -/
theorem create_success_counterexample :
    (create_user behChpasswdFail emptyState "alice" (some "s3cr3t")
        "/bin/bash" none true).ok = true ∧
      (create_user behChpasswdFail emptyState "alice" (some "s3cr3t")
          "/bin/bash" none true).state.users =
        [PwEntry.mk "alice" 1000 "" "/home/alice" "/bin/bash" none] := by decide

/-- C2 amended: when `create_user` with a non-empty credential and home
creation requested reports success AND the credential-setting backend
call did not fail, the final state has the entry present, the home
directory present, and the credential set. -/
theorem create_success_full_state (beh : Behavior) (st : SysState)
    (u p sh : String) (hp : p ≠ "") (hcp : beh.chpasswdFails = false)
    (hok : (create_user beh st u (some p) sh none true).ok = true) :
    user_exists (create_user beh st u (some p) sh none true).state u = true ∧
      "/home/" ++ u ∈ (create_user beh st u (some p) sh none true).state.homes ∧
      ∃ e, e ∈ (create_user beh st u (some p) sh none true).state.users ∧
        e.pw_name = u ∧ e.pw_passwd = some p := by
  cases hb : user_exists st u with
  | true => simp [create_user, hb] at hok
  | false =>
    cases hua : beh.useraddFails with
    | true => simp [create_user, create_user_linux, run_useradd, hb, hua] at hok
    | false =>
      rw [create_user_home_eq beh st u p sh hb hua hp]
      have hex1 : user_exists
          (⟨st.users ++ [PwEntry.mk u beh.newUid "" ("/home/" ++ u) sh none],
            st.homes ++ ["/home/" ++ u]⟩ : SysState) u = true := by
        simp [user_exists]
      rw [update_password_chpasswd_ok beh _ u p hex1 hcp]
      refine ⟨?_, ?_, ?_⟩
      · show ((st.users ++ [PwEntry.mk u beh.newUid "" ("/home/" ++ u) sh none]).map
            (fun e =>
              if e.pw_name == u then
                PwEntry.mk e.pw_name e.pw_uid e.pw_gecos e.pw_dir e.pw_shell (some p)
              else e)).any (fun e => e.pw_name == u) = true
        rw [any_name_map_passwd]
        exact hex1
      · simp
      · refine ⟨PwEntry.mk u beh.newUid "" ("/home/" ++ u) sh (some p), ?_, rfl, rfl⟩
        simp [List.mem_map]

theorem create_success_full_state_witness :
    (create_user behNone emptyState "alice" (some "s3cr3t") "/bin/bash" none true).ok = true ∧
      (user_exists (create_user behNone emptyState "alice" (some "s3cr3t")
          "/bin/bash" none true).state "alice" = true ∧
        "/home/alice" ∈ (create_user behNone emptyState "alice" (some "s3cr3t")
          "/bin/bash" none true).state.homes ∧
        ∃ e, e ∈ (create_user behNone emptyState "alice" (some "s3cr3t")
            "/bin/bash" none true).state.users ∧
          e.pw_name = "alice" ∧ e.pw_passwd = some "s3cr3t") :=
  ⟨by decide,
    create_success_full_state behNone emptyState "alice" "s3cr3t" "/bin/bash"
      (by decide) (by decide) (by decide)⟩

/-! ### C6 -/

/-- C6 counterexample: `create_user` with no credential issues no step
that disables login.  On Linux the only backend call is `useradd` and
the created entry's credential is left unset (`none`); on Windows the
account is created via `NetUserAdd` with the blank credential `""` —
exactly the ambiguous unset/blank state the claim says never occurs. -/
theorem lock_credential_counterexample :
    (create_user behNone emptyState "alice" none "/bin/bash" none true).calls =
        [SysCall.useraddCall "alice"] ∧
      (create_user behNone emptyState "alice" none "/bin/bash" none true).state.users =
        [PwEntry.mk "alice" 1000 "" "/home/alice" "/bin/bash" none] ∧
      (create_user_win winBehNone ⟨[], []⟩ "alice" none).state.users =
        [WinUser.mk "alice" ""] := by decide

/-- C6 amended: a create intent with no credential appends no
login-disabling step: on Linux the plan is `useradd` alone, a warning
is logged, and the entry's credential stays unset; on Windows
`NetUserAdd` is called with the empty string, leaving a blank
credential. -/
theorem create_without_credential_no_lock (beh : Behavior) (st : SysState)
    (u sh : String) (wbeh : WinBehavior) (wst : WinState)
    (hne : user_exists st u = false) (hua : beh.useraddFails = false)
    (hwne : win_user_exists wst u = false)
    (hwa : wbeh.netUserAddFails = false) :
    create_user beh st u none sh none true =
        RunResult.mk true
          ⟨st.users ++ [PwEntry.mk u beh.newUid "" ("/home/" ++ u) sh none],
            st.homes ++ ["/home/" ++ u]⟩
          [SysCall.useraddCall u]
          [LogMsg.warnNoPassword u, LogMsg.infoCreated u] ∧
      create_user_win wbeh wst u none =
        WinRunResult.mk true ⟨wst.users ++ [WinUser.mk u ""], wst.profiles⟩
          [WinCall.netUserAdd u ""] [WinLogMsg.warnEmptyPassword u] := by
  constructor
  · unfold create_user create_user_linux run_useradd
    simp [hne, hua]
  · unfold create_user_win create_user_windows
    simp [hwne, hwa]

theorem create_without_credential_no_lock_witness :
    user_exists emptyState "alice" = false ∧
      win_user_exists ⟨[], []⟩ "alice" = false ∧
      (create_user behNone emptyState "alice" none "/bin/bash" none true =
          RunResult.mk true
            ⟨[PwEntry.mk "alice" 1000 "" "/home/alice" "/bin/bash" none], ["/home/alice"]⟩
            [SysCall.useraddCall "alice"]
            [LogMsg.warnNoPassword "alice", LogMsg.infoCreated "alice"] ∧
        create_user_win winBehNone ⟨[], []⟩ "alice" none =
          WinRunResult.mk true ⟨[WinUser.mk "alice" ""], []⟩
            [WinCall.netUserAdd "alice" ""] [WinLogMsg.warnEmptyPassword "alice"]) :=
  ⟨by decide, by decide,
    create_without_credential_no_lock behNone emptyState "alice" "/bin/bash"
      winBehNone ⟨[], []⟩ (by decide) (by decide) (by decide) (by decide)⟩

/-! ### C9 -/

/-- C9 counterexample: on the Windows backend, which does not implement
home/profile removal, `delete_user` with `remove_home=True` reports
success (`ok = true`, no PolicyRejected-style failure), merely logs a
warning, and leaves the profile directory untouched — a silent no-op
for the removal request. -/
theorem windows_remove_home_counterexample :
    (delete_user_win winBehNone winCarol "carol" true).ok = true ∧
      (delete_user_win winBehNone winCarol "carol" true).state.profiles =
        ["C:/Users/carol"] ∧
      (delete_user_win winBehNone winCarol "carol" true).log =
        [WinLogMsg.warnHomeNotImplemented, WinLogMsg.infoDeleted "carol"] := by decide

/-- C9 amended: the Windows backend leaves home/profile removal
unimplemented: a delete request that asks for home removal deletes the
account entry, leaves all profile directories untouched, logs a
warning that removal is not implemented, and still reports success —
it is not surfaced as a distinct error. -/
theorem windows_remove_home_warn_noop (wbeh : WinBehavior) (wst : WinState)
    (u : String) (hex : win_user_exists wst u = true)
    (hdf : wbeh.netUserDelFails = false) :
    delete_user_win wbeh wst u true =
      WinRunResult.mk true
        ⟨wst.users.filter (fun e => !(e.name == u)), wst.profiles⟩
        [WinCall.netUserDel u]
        [WinLogMsg.warnHomeNotImplemented, WinLogMsg.infoDeleted u] := by
  unfold delete_user_win delete_user_windows
  simp [hex, hdf]

theorem windows_remove_home_warn_noop_witness :
    win_user_exists winCarol "carol" = true ∧
      delete_user_win winBehNone winCarol "carol" true =
        WinRunResult.mk true ⟨[], ["C:/Users/carol"]⟩
          [WinCall.netUserDel "carol"]
          [WinLogMsg.warnHomeNotImplemented, WinLogMsg.infoDeleted "carol"] :=
  ⟨by decide,
    windows_remove_home_warn_noop winBehNone winCarol "carol" (by decide) (by decide)⟩

/-! ### Listing lemmas -/

theorem mem_list_users (entries : List PwEntry) (pat : Option String)
    (u : String) (uid : Nat) (d : String) :
    (u, uid, d) ∈ list_users_linux entries pat ↔
      ∃ e, e ∈ entries ∧ toRow e = (u, uid, d) ∧
        matchesPattern pat e.pw_name = true ∧
        (1000 ≤ e.pw_uid ∨ e.pw_uid = 0) := by
  unfold list_users_linux
  rw [List.mem_mergeSort]
  simp only [List.mem_map, List.mem_filter, keepEntry, Bool.and_eq_true,
    Bool.or_eq_true, decide_eq_true_iff, beq_iff_eq]
  constructor
  · rintro ⟨e, ⟨he, hm, hc⟩, ht⟩
    exact ⟨e, he, ht, hm, hc⟩
  · rintro ⟨e, he, ht, hm, hc⟩
    exact ⟨e, ⟨he, hm, hc⟩, ht⟩

theorem rowLe_total (a b : String × Nat × String) :
    (rowLe a b || rowLe b a) = true := by
  unfold rowLe
  simp only [Bool.or_eq_true, Bool.and_eq_true, decide_eq_true_iff, beq_iff_eq]
  rcases lt_trichotomy a.1 b.1 with h | h | h
  · exact Or.inl (Or.inl h)
  · rcases lt_trichotomy a.2.1 b.2.1 with h2 | h2 | h2
    · exact Or.inl (Or.inr ⟨h, Or.inl h2⟩)
    · rcases le_total a.2.2 b.2.2 with h3 | h3
      · exact Or.inl (Or.inr ⟨h, Or.inr ⟨h2, h3⟩⟩)
      · exact Or.inr (Or.inr ⟨h.symm, Or.inr ⟨h2.symm, h3⟩⟩)
    · exact Or.inr (Or.inr ⟨h.symm, Or.inl h2⟩)
  · exact Or.inr (Or.inl h)

theorem rowLe_trans (a b c : String × Nat × String)
    (hab : rowLe a b = true) (hbc : rowLe b c = true) : rowLe a c = true := by
  unfold rowLe at hab hbc ⊢
  simp only [Bool.or_eq_true, Bool.and_eq_true, decide_eq_true_iff,
    beq_iff_eq] at hab hbc ⊢
  rcases hab with h1 | ⟨e1, h1⟩
  · rcases hbc with h2 | ⟨e2, h2⟩
    · exact Or.inl (lt_trans h1 h2)
    · exact Or.inl (h1.trans_eq e2)
  · rcases hbc with h2 | ⟨e2, h2⟩
    · exact Or.inl (e1.trans_lt h2)
    · refine Or.inr ⟨e1.trans e2, ?_⟩
      rcases h1 with h1 | ⟨f1, h1⟩
      · rcases h2 with h2 | ⟨f2, h2⟩
        · exact Or.inl (lt_trans h1 h2)
        · exact Or.inl (h1.trans_eq f2)
      · rcases h2 with h2 | ⟨f2, h2⟩
        · exact Or.inl (f1.trans_lt h2)
        · exact Or.inr ⟨f1.trans f2, le_trans h1 h2⟩

theorem sorted_list_users (entries : List PwEntry) (pat : Option String) :
    (list_users_linux entries pat).Pairwise (fun a b => rowLe a b = true) := by
  unfold list_users_linux
  exact List.sorted_mergeSort (fun a b c => rowLe_trans a b c)
    (fun a b => rowLe_total a b) _

/-! ### C8 -/

/-- C8 counterexample: the username `badm` contains the pattern `adm`
(case-insensitively), yet `list_users_linux` omits it because its uid
500 fails the system-account filter — so the output is not exactly the
accounts whose username contains the pattern. -/
theorem list_substring_counterexample :
    containsChars (lowerChars "adm") (lowerChars "badm") = true ∧
      list_users_linux [PwEntry.mk "badm" 500 "" "/home/badm" "/bin/bash" none]
        (some "adm") = [] := by
  constructor
  · decide
  · have h : [PwEntry.mk "badm" 500 "" "/home/badm" "/bin/bash" none].filter
        (keepEntry (some "adm")) = [] := by decide
    unfold list_users_linux
    rw [h]
    simp

/-- C8 amended: `list_users_linux` returns exactly the rows of the
accounts whose username passes the (case-insensitive substring) pattern
check AND whose uid is ≥ 1000 or exactly 0, and the output is sorted by
username in ascending order. -/
theorem list_users_filter_sorted (entries : List PwEntry) (pat : Option String) :
    (∀ u uid d, (u, uid, d) ∈ list_users_linux entries pat ↔
        ∃ e, e ∈ entries ∧ toRow e = (u, uid, d) ∧
          matchesPattern pat e.pw_name = true ∧
          (1000 ≤ e.pw_uid ∨ e.pw_uid = 0)) ∧
      (list_users_linux entries pat).Pairwise
        (fun a b => a.1 < b.1 ∨ a.1 = b.1) := by
  refine ⟨mem_list_users entries pat, ?_⟩
  refine (sorted_list_users entries pat).imp ?_
  intro a b hab
  unfold rowLe at hab
  simp only [Bool.or_eq_true, Bool.and_eq_true, decide_eq_true_iff,
    beq_iff_eq] at hab
  rcases hab with h | ⟨h, -⟩
  · exact Or.inl h
  · exact Or.inr h

theorem list_users_filter_sorted_witness :
    ("zadm", 1001, "g") ∈
      list_users_linux [PwEntry.mk "zadm" 1001 "g" "/h" "/bin/bash" none]
        (some "adm") :=
  ((list_users_filter_sorted
      [PwEntry.mk "zadm" 1001 "g" "/h" "/bin/bash" none] (some "adm")).1
    "zadm" 1001 "g").mpr
    ⟨PwEntry.mk "zadm" 1001 "g" "/h" "/bin/bash" none, by decide, by decide,
      by decide, by decide⟩

/-! ### C10 -/

/-- C10: a row appears in the listing iff it comes from an entry whose
uid is at least 1000 or exactly 0 and whose username passes the pattern
check; in particular every listed row has uid ≥ 1000 or uid = 0 (uids 1
through 999 are never listed), and an entry with uid 0 (root) passing
the pattern check is always listed. -/
theorem list_uid_threshold (entries : List PwEntry) (pat : Option String) :
    (∀ u uid d, (u, uid, d) ∈ list_users_linux entries pat ↔
        ∃ e, e ∈ entries ∧ toRow e = (u, uid, d) ∧
          matchesPattern pat e.pw_name = true ∧
          (1000 ≤ e.pw_uid ∨ e.pw_uid = 0)) ∧
      (∀ u uid d, (u, uid, d) ∈ list_users_linux entries pat →
        1000 ≤ uid ∨ uid = 0) ∧
      (∀ e, e ∈ entries → e.pw_uid = 0 → matchesPattern pat e.pw_name = true →
        toRow e ∈ list_users_linux entries pat) := by
  refine ⟨mem_list_users entries pat, ?_, ?_⟩
  · intro u uid d h
    obtain ⟨e, -, he, -, hcond⟩ := (mem_list_users entries pat u uid d).mp h
    have huid : e.pw_uid = uid := congrArg (fun t => t.2.1) he
    exact huid ▸ hcond
  · intro e he h0 hm
    exact (mem_list_users entries pat e.pw_name e.pw_uid (descOf e)).mpr
      ⟨e, he, rfl, hm, Or.inr h0⟩

theorem list_uid_threshold_witness :
    toRow (PwEntry.mk "root" 0 "" "/root" "/bin/bash" none) ∈
      list_users_linux [PwEntry.mk "root" 0 "" "/root" "/bin/bash" none] none :=
  (list_uid_threshold [PwEntry.mk "root" 0 "" "/root" "/bin/bash" none] none).2.2
    (PwEntry.mk "root" 0 "" "/root" "/bin/bash" none) (by decide) rfl rfl

end UserManager
